import Mathlib

/-!
Shallow embedding of the AD-log reconciliation pipeline of the repository
(leasing-core), used to settle the claims about its specification.

Source files embedded here:
  it_tools/services/ad_log_service.py  (class ADLogService)
  it_tools/views.py                    (ad_log_run_analysis, ad_log_send_email)
  it_tools/models.py                   (ADLogAnalysis, GIDDiscrepancy, ProcessedADFile)
  core/services/base.py                (BaseService, ServiceResult)

Modelling conventions:
  - machine integers are Nat (no overflow is relevant anywhere in this code);
  - Django model rows are plain structures, tables are lists of rows;
  - `analysis.save()` is recorded by appending the saved status to a trace,
    the analysis record itself is the single shared mutable object that both
    the view and the service reference (they alias the same row);
  - `cache.set` for the progress store is recorded as an appended trace of
    published progress records (step, percent, message); the `details` dict
    payload is omitted: no claim mentions it;
  - the filesystem is modelled by the listing of the source directory, of the
    per-run temp directory and of the output folder; copies are modelled as
    reliable (an I/O error in shutil.copy2 is environmental);
  - Python exceptions are explicit: a method evaluates to an `Outcome` that is
    either a returned `ServiceRes` or a raised `PyExc`;
  - `OPENPYXL_AVAILABLE` and `PANDAS_AVAILABLE` are true: both libraries are
    installed in the deployment, and the claims describe the pandas branch;
  - apostrophes occurring inside Turkish string literals of the source are
    dropped here (e.g. GIDleri for the possessive form); no theorem depends
    on the exact text of such a message.

A key fact of the source, used throughout: BaseService (core/services/base.py)
defines only `logger` and the four log helpers; it defines NO `success` and NO
`error` method, and ADLogService defines none either, yet every ADLogService
method finishes with `return self.success(...)` or `return self.error(...)`.
Attribute lookup on `self.success` / `self.error` therefore raises
AttributeError at run time, after the side effects already performed by the
method body. The helpers `svcSuccess` / `svcError` below embed exactly that.
-/

namespace ADLog

/-- Status enum of ADLogAnalysis (it_tools/models.py STATUS_CHOICES). -/
inductive Status where
  | pending
  | downloading
  | processing
  | comparing
  | completed
  | email_pending
  | email_sent
  | failed
deriving DecidableEq, Repr

/-- Position of a status in the forward order of the pipeline
(pending, downloading, processing, comparing, completed, email_pending,
email_sent); `failed` is the jump-target outside the forward order. -/
def Status.idx : Status → Nat
  | .pending => 0
  | .downloading => 1
  | .processing => 2
  | .comparing => 3
  | .completed => 4
  | .email_pending => 5
  | .email_sent => 6
  | .failed => 7

/-- A raised Python exception, as far as this embedding needs to
distinguish them. -/
inductive PyExc where
  | attributeError (attr : String)
  | nameError (nm : String)
  | typeError (msg : String)
deriving DecidableEq, Repr

/-- The str() rendering of an exception (quotes of the CPython text are
dropped; no theorem depends on the exact wording). -/
def PyExc.toMessage : PyExc → String
  | .attributeError a => "ADLogService object has no attribute " ++ a
  | .nameError n => "name " ++ n ++ " is not defined"
  | .typeError m => m

/-- core/services/base.py ServiceResult, with the data payload typed per
method. `data` is optional exactly as in the source (None by default). -/
structure ServiceRes (α : Type) where
  success : Bool
  message : String
  data : Option α
deriving DecidableEq, Repr

/-- The result of evaluating a Python method body: a returned value or a
raised exception. -/
inductive Outcome (α : Type) where
  | ok (r : ServiceRes α)
  | raised (e : PyExc)
deriving DecidableEq, Repr

/-- True when the outcome is a returned result with success=True. -/
def Outcome.isSuccess : Outcome α → Bool
  | .ok r => r.success
  | .raised _ => false

/-- Embedding of a `return self.error(message)` statement in ADLogService.
BaseService defines no `error` attribute, so the attribute lookup raises
AttributeError before the message argument is used anywhere. -/
def svcError (α : Type) (_message : String) : Outcome α :=
  .raised (.attributeError "error")

/-- Embedding of a `return self.success(data)` statement in ADLogService.
BaseService defines no `success` attribute, so the attribute lookup raises
AttributeError; the side effects executed before the statement stand. -/
def svcSuccess {α : Type} (_data : α) : Outcome α :=
  .raised (.attributeError "success")

/-! ### Small string and calendar helpers (Python built-ins used by the code) -/

/-- Zero-padded two-digit rendering, Python format spec 02d. -/
def pad2 (n : Nat) : String :=
  if n < 10 then "0" ++ toString n else toString n

/-- Whether pat occurs as a contiguous sublist (helper for the Python `in`
substring test, written structurally so the kernel can evaluate it). -/
def subOccurs (pat : List Char) : List Char → Bool
  | [] => pat.isPrefixOf []
  | c :: rest => pat.isPrefixOf (c :: rest) || subOccurs pat rest

/-- Python `pat in s` substring test. -/
def containsSub (s pat : String) : Bool :=
  subOccurs pat.data s.data

/-- Python str.lower() (ASCII contents here). -/
def pyLower (s : String) : String :=
  ⟨s.data.map Char.toLower⟩

/-- Helper of removeAll: fueled by the remaining length, which suffices
because each step consumes at least one character. -/
def removeAllAux (pat : List Char) : Nat → List Char → List Char
  | 0, l => l
  | _, [] => []
  | fuel + 1, c :: rest =>
      if pat.isPrefixOf (c :: rest) then removeAllAux pat fuel ((c :: rest).drop pat.length)
      else c :: removeAllAux pat fuel rest

/-- Python s.replace(pat, ""): remove every occurrence of pat. -/
def removeAll (s pat : String) : String :=
  ⟨removeAllAux pat.data s.data.length s.data⟩

/-- Python s.split(sep) for a one-character separator. -/
def splitOnChar (sep : Char) : List Char → List (List Char)
  | [] => [[]]
  | c :: rest =>
      let r := splitOnChar sep rest
      if c = sep then [] :: r
      else
        match r with
        | [] => [[c]]
        | h :: t => (c :: h) :: t

/-- Python s.endswith(pat). -/
def pyEndsWith (s pat : String) : Bool :=
  pat.data.isSuffixOf s.data

/-- Python `", ".join(l)`. -/
def joinComma (l : List String) : String :=
  String.intercalate ", " l

/-- Python set element insertion, modelled with first-insertion order. -/
def setInsert (s : List String) (g : String) : List String :=
  if g ∈ s then s else s ++ [g]

/-- Python `set.update(gs)`. -/
def setUpdate (s : List String) (gs : List String) : List String :=
  gs.foldl setInsert s

/-- Python `set(gs)` built from a list. -/
def setOfList (gs : List String) : List String :=
  setUpdate [] gs

/-- Gregorian leap-year rule (calendar.isleap). -/
def isLeap (y : Nat) : Bool :=
  (y % 4 == 0 && y % 100 != 0) || y % 400 == 0

/-- calendar.monthrange(year, month)[1] for month in 1..12. -/
def daysInMonth (y m : Nat) : Nat :=
  if m = 2 then (if isLeap y then 29 else 28)
  else if m = 4 ∨ m = 6 ∨ m = 9 ∨ m = 11 then 30
  else 31

/-! ### Data model (it_tools/models.py) -/

/-- PathDefinition (aliased ADLogSourcePath): the fields the pipeline reads. -/
structure PathConfig where
  source_path : String
  output_path : String
deriving DecidableEq, Repr

/-- ADLogAnalysis row: the fields driven by the pipeline and the views. -/
structure Analysis where
  id : Nat
  name : String
  year : Nat
  month : Nat
  source_path_config : Option PathConfig
  source_path : Option String
  status : Status
  error_message : Option String
  processed_files_count : Nat
  total_gids_found : Nat
  unique_gids_count : Nat
  discrepancy_count : Nat
  email_to : Option String
  email_cc : Option String
  email_subject : Option String
  email_body : Option String
  email_sent_at : Option Nat
  log_file : Option String
  unique_gids_file : Option String
  user_checklist_file : Option String
deriving DecidableEq, Repr

/-- GIDRecord dataclass of ad_log_service.py. Every record the pipeline
constructs carries its source file name, so source_file is a plain String
here (the unused display_name, email and department fields are omitted). -/
structure GIDRecord where
  gid : String
  source_file : String
  date : Option String
deriving DecidableEq, Repr

/-- GIDDiscrepancy row. -/
structure DiscRow where
  analysisId : Nat
  gid : String
  discrepancy_type : String
  details : String
  source_file : Option String
deriving DecidableEq, Repr

/-- ProcessedADFile row. -/
structure ProcRow where
  analysisId : Nat
  original_filename : String
  gids_count : Nat
deriving DecidableEq, Repr

/-- A CustomUser row (only the gid column matters to this pipeline). -/
structure UserRow where
  gid : Option String
deriving DecidableEq, Repr

/-- The relational store shared by the pipeline. -/
structure DB where
  users : List UserRow
  discRows : List DiscRow
  procRows : List ProcRow
deriving DecidableEq, Repr

/-- One published progress record (the struct stored under the run key). -/
structure ProgressRec where
  step : String
  percent : Nat
  message : String
deriving DecidableEq, Repr

/-- In-memory state of an ADLogService instance. -/
structure SvcState where
  gids_from_files : List String
  gid_records : List GIDRecord
  processed_files : List String
deriving DecidableEq, Repr

/-- The fresh state built by ADLogService.__init__. -/
def SvcState.init : SvcState :=
  { gids_from_files := [], gid_records := [], processed_files := [] }

/-- Filesystem model: existence of the source directory, its listing, the
staged files in the per-run temp directory, and files written to the output
folder. -/
structure FS where
  sourceExists : Bool
  sourceListing : List String
  tempListing : List String
  outputFiles : List String
deriving DecidableEq, Repr

/-- The whole world a run mutates: the analysis row (one shared object,
aliased by view and service), the database, the filesystem, the service
state, plus the trace of saved statuses and published progress records. -/
structure World where
  analysis : Analysis
  db : DB
  fs : FS
  svc : SvcState
  statusTrace : List Status
  progressTrace : List ProgressRec
deriving Repr

/-- analysis.save(): the saved status is appended to the persisted trace. -/
def save (w : World) : World :=
  { w with statusTrace := w.statusTrace ++ [w.analysis.status] }

/-- update_progress: cache.set of the progress struct (the run always has a
progress key here, because the view always constructs the service with an
analysis object). -/
def pub (w : World) (step : String) (percent : Nat) (message : String) : World :=
  { w with progressTrace := w.progressTrace ++ [⟨step, percent, message⟩] }

/-- Spreadsheet as pandas presents it: the header row (DataFrame column
labels) and the data rows; an empty or NaN cell is none. -/
structure Sheet where
  headers : List String
  rows : List (List (Option String))

/-- Environment of a run: which staged file parses to which sheet; none
models a file pd.read_excel fails to open or parse. -/
structure Env where
  sheets : String → Option Sheet

/-! ### ADLogService (it_tools/services/ad_log_service.py) -/

/-- FILE_PREFIX class constant. -/
def filePref : String := "EventExport_"

/-- get_expected_filenames: one base name per calendar day of the target
month, format EventExport_YYYY-MM-DD. -/
def get_expected_filenames (year month : Nat) : List String :=
  (List.range' 1 (daysInMonth year month)).map
    (fun day => filePref ++ toString year ++ "-" ++ pad2 month ++ "-" ++ pad2 day)

/-- Accepted extensions, in the preference order the code probes them. -/
def extOrder : List String := [".xlsx", ".xls", ".xlsm"]

/-- Probe the source directory for one expected base name: the first
extension whose file exists wins. -/
def probeDay (listing : List String) (base : String) : Option String :=
  extOrder.findSome? (fun ext =>
    if (base ++ ext) ∈ listing then some (base ++ ext) else none)

/-- shutil.copy2 into the temp directory: overwrites a file of the same
name, so the listing gains the name at most once. -/
def tempCopy (l : List String) (f : String) : List String :=
  if f ∈ l then l else l ++ [f]

/-- Data dict of a successful download_files_to_temp. -/
structure DownloadData where
  downloaded_count : Nat
  not_found_count : Nat
  downloaded_files : List String
  not_found_files : List String
  temp_directory : String
deriving DecidableEq, Repr

/-- Loop body state of download_files_to_temp: world, downloaded files,
not-found base names, 1-based enumerate index. -/
def downloadStep (total : Nat)
    (acc : World × List String × List String × Nat) (base : String) :
    World × List String × List String × Nat :=
  let (w, dl, nf, idx) := acc
  match probeDay w.fs.sourceListing base with
  | some file =>
      let w := { w with fs := { w.fs with tempListing := tempCopy w.fs.tempListing file } }
      let w := pub w "downloading" (idx * 100 / total)
        (toString idx ++ "/" ++ toString total ++ " dosya indirildi")
      (w, dl ++ [file], nf, idx + 1)
  | none => (w, dl, nf ++ [base], idx + 1)

/-- The probing loop of download_files_to_temp over the expected base
names, starting from empty accumulators and enumerate index 1. -/
def downloadRun (w : World) (expected : List String) :
    World × List String × List String × Nat :=
  expected.foldl (downloadStep expected.length) (w, [], [], 1)

/-- download_files_to_temp(source_path, year, month). -/
def download_files_to_temp (w : World) (source_path : String) (year month : Nat) :
    World × Outcome DownloadData :=
  let w := pub w "downloading" 0 "Dosyalar fileserverdan indiriliyor..."
  if ¬ w.fs.sourceExists then
    (w, svcError _ ("Kaynak klasör bulunamadı: " ++ source_path))
  else
    let expected := get_expected_filenames year month
    let (w, downloaded, not_found, _) := downloadRun w expected
    if downloaded = [] then
      (w, svcError _ ("Seçilen dönem için (" ++ pad2 month ++ "/" ++ toString year
        ++ ") hiç dosya bulunamadı."))
    else
      let w := pub w "downloading" 100 "Dosyalar başarıyla indirildi"
      (w, svcSuccess
        { downloaded_count := downloaded.length
          not_found_count := not_found.length
          downloaded_files := downloaded
          not_found_files := not_found.take 10
          temp_directory := "analysis_" ++ toString w.analysis.id })

/-- The header label the extractor looks for, lowercased. -/
def gidLabel : String := "matchedqueryelements"

/-- First index of a header that is truthy and contains the label
case-insensitively (the loop `for col in df.columns` of the source). -/
def findHeaderIdx (p : String → Bool) : List String → Option Nat
  | [] => none
  | c :: rest => if p c then some 0 else (findHeaderIdx p rest).map (· + 1)

/-- Column located by _extract_gids_from_column_d: header match first, else
column index 3 when the frame has at least 4 columns; the located label must
itself be truthy (`if gid_column:`), which only matters for the fallback. -/
def locateGidColumn (headers : List String) : Option Nat :=
  match findHeaderIdx (fun c => c ≠ "" && containsSub (pyLower c) gidLabel) headers with
  | some i => some i
  | none =>
      if headers.length ≥ 4 then
        (if headers.getD 3 "" ≠ "" then some 3 else none)
      else none

/-- Python str.strip(): drop leading and trailing whitespace (written with
structural list recursion so that the kernel can evaluate it). -/
def pyStrip (s : String) : String :=
  ⟨((s.data.dropWhile Char.isWhitespace).reverse.dropWhile Char.isWhitespace).reverse⟩

/-- Cell screening of the row loop: `if gid_value and pd.notna(gid_value)`
then `str(gid_value).strip()` then `if gid_str`; yields the stripped value
of a kept cell. -/
def cellGid (row : List (Option String)) (i : Nat) : Option String :=
  match row.getD i none with
  | none => none
  | some v =>
      if v ≠ "" then (if pyStrip v ≠ "" then some (pyStrip v) else none) else none

/-- Date inferred from the file name: present when FILE_PREFIX occurs in the
name, obtained by removing every occurrence of the prefix and keeping the
part before the first dot. -/
def inferredDate (filename : String) : Option String :=
  if containsSub filename filePref then
    some ⟨(removeAll filename filePref).data.takeWhile (fun c => c ≠ '.')⟩
  else none

/-- _extract_gids_from_column_d (pandas branch; a read failure is caught
inside the method and yields no records). The source name carries a leading
underscore. -/
def extract_gids_from_column_d (filename : String) (sheet? : Option Sheet) :
    List GIDRecord :=
  match sheet? with
  | none => []
  | some sh =>
      match locateGidColumn sh.headers with
      | none => []
      | some i =>
          sh.rows.filterMap (fun r =>
            (cellGid r i).map (fun g =>
              { gid := g, source_file := filename, date := inferredDate filename }))

/-- Data dict of a successful process_downloaded_files. -/
structure ProcessData where
  processed_files : Nat
  total_gids : Nat
  unique_gids : Nat
  files : List String
deriving DecidableEq, Repr

/-- glob over the temp directory for *.xlsx, *.xls, *.xlsm (in that order of
patterns, as the source concatenates the three globs). -/
def tempExcelFiles (l : List String) : List String :=
  l.filter (fun f => pyEndsWith f ".xlsx") ++ l.filter (fun f => pyEndsWith f ".xls")
    ++ l.filter (fun f => pyEndsWith f ".xlsm")

/-- Loop body of process_downloaded_files: a file whose extraction yields at
least one record updates the gid set, the record list, the processed list
and both counters; others are skipped. -/
def processStep (env : Env) (acc : World × Nat × Nat) (file : String) :
    World × Nat × Nat :=
  let (w, processed_count, total_gids) := acc
  let gids := extract_gids_from_column_d file (env.sheets file)
  if gids ≠ [] then
    let w := { w with svc :=
      { gids_from_files := setUpdate w.svc.gids_from_files (gids.map (·.gid))
        gid_records := w.svc.gid_records ++ gids
        processed_files := w.svc.processed_files ++ [file] } }
    (w, processed_count + 1, total_gids + gids.length)
  else (w, processed_count, total_gids)

/-- process_downloaded_files. Both spreadsheet libraries are available, and
get_temp_directory has just created the temp directory, so the two guard
errors at the top of the method cannot fire here. -/
def process_downloaded_files (env : Env) (w : World) : World × Outcome ProcessData :=
  let w := pub w "processing" 0 "Excel dosyaları işleniyor..."
  let excel_files := tempExcelFiles w.fs.tempListing
  if excel_files = [] then
    (w, svcError _ ("Temp klasörde Excel dosyası bulunamadı: analysis_"
      ++ toString w.analysis.id))
  else
    let (w, processed_count, total_gids) :=
      excel_files.foldl (processStep env) (w, 0, 0)
    let w := pub w "processing" 100 "Dosyalar başarıyla işlendi"
    (w, svcSuccess
      { processed_files := processed_count
        total_gids := total_gids
        unique_gids := w.svc.gids_from_files.length
        files := w.svc.processed_files })

/-- The system-of-record gid set: User.objects, excluding rows whose gid
is null or the empty string, with values_list over the gid column,
collected into a set. -/
def userGidSet (users : List UserRow) : List String :=
  setOfList (users.filterMap (fun u =>
    match u.gid with
    | none => none
    | some g => if g = "" then none else some g))

/-- Distinct source files contributing a gid, in first-occurrence order
(the Python expression set(r.source_file for r in records if r.gid == gid)). -/
def sourcesFor (records : List GIDRecord) (g : String) : List String :=
  setOfList ((records.filter (fun r => r.gid = g)).map (·.source_file))

/-- One entry of the in-memory discrepancies list built by the comparison. -/
structure DiscrepancyEntry where
  gid : String
  type : String
  details : String
  source_files : List String
deriving DecidableEq, Repr

/-- Data dict of a successful compare_with_user_gids. -/
structure CompareData where
  total_in_files : Nat
  total_user_gids : Nat
  unmatched_count : Nat
  matched_count : Nat
  unmatched_gids : List String
  discrepancies : List DiscrepancyEntry
deriving DecidableEq, Repr

/-- The GIDDiscrepancy row persisted for one unmatched gid. -/
def mkDiscRow (aid : Nat) (records : List GIDRecord) (g : String) : DiscRow :=
  let sources := sourcesFor records g
  { analysisId := aid
    gid := g
    discrepancy_type := "missing_in_system"
    details := "GID " ++ g ++ " AD loglarında mevcut ancak sistemde tanımlı kullanıcı yok."
    source_file := if sources ≠ [] then some (joinComma sources) else none }

/-- compare_with_user_gids. The service always has an analysis object here
(the view constructs it that way), so the persistence branch always runs:
all GIDDiscrepancy rows of this analysis are deleted, then one row per
unmatched gid is inserted. -/
def compare_with_user_gids (w : World) : World × Outcome CompareData :=
  let w := pub w "comparing" 0 "Kullanıcı GIDleri karşılaştırılıyor..."
  if w.svc.gids_from_files = [] then
    (w, svcError _ "Önce Excel dosyalarını işlemelisiniz.")
  else
    let user_gids := userGidSet w.db.users
    let w := pub w "comparing" 30 "Sistem GIDleri alındı..."
    let unmatched := w.svc.gids_from_files.filter (fun g => ¬ g ∈ user_gids)
    let w := pub w "comparing" 60 "Farklılıklar tespit ediliyor..."
    let discrepancies := unmatched.map (fun g =>
      { gid := g
        type := "not_in_users"
        details := "GID " ++ g ++ " AD loglarında mevcut ancak sistemde tanımlı kullanıcı yok."
        source_files := sourcesFor w.svc.gid_records g : DiscrepancyEntry })
    let aid := w.analysis.id
    let newRows := unmatched.map (mkDiscRow aid w.svc.gid_records)
    let w := { w with db := { w.db with
      discRows := w.db.discRows.filter (fun r => r.analysisId ≠ aid) ++ newRows } }
    let w := pub w "comparing" 100 "Karşılaştırma tamamlandı"
    (w, svcSuccess
      { total_in_files := w.svc.gids_from_files.length
        total_user_gids := user_gids.length
        unmatched_count := unmatched.length
        matched_count := w.svc.gids_from_files.length - unmatched.length
        unmatched_gids := unmatched
        discrepancies := discrepancies })

/-- Romanized lowercase Turkish month name used for the output folder,
i.e. the value of month_name.lower() with ş→s, ç→c, ı→i, ü→u, ö→o, ğ→g
applied, tabulated for the twelve MONTH_CHOICES. -/
def monthFolderName : Nat → String
  | 1 => "ocak" | 2 => "subat" | 3 => "mart" | 4 => "nisan"
  | 5 => "mayis" | 6 => "haziran" | 7 => "temmuz" | 8 => "agustos"
  | 9 => "eylul" | 10 => "ekim" | 11 => "kasim" | _ => "aralik"

/-- ADLogAnalysis.get_output_folder: configured output path (else the media
fallback) joined with monthname_year. -/
def get_output_folder (a : Analysis) : String :=
  let base := match a.source_path_config with
    | some cfg => cfg.output_path
    | none => "MEDIA_ROOT/ad_logs/outputs"
  base ++ "/" ++ monthFolderName a.month ++ "_" ++ toString a.year

/-- Data dict of _save_user_gids_excel. -/
structure FileData where
  filepath : String
deriving DecidableEq, Repr

/-- _save_user_gids_excel: writes kullanici_gidleri.xlsx into the output
folder, then reaches `return self.success(...)`, which raises. -/
def save_user_gids_excel (w : World) (output_folder : String) :
    World × Outcome FileData :=
  let path := output_folder ++ "/kullanici_gidleri.xlsx"
  let w := { w with fs := { w.fs with outputFiles := w.fs.outputFiles ++ [path] } }
  (w, svcSuccess { filepath := path })

/-- Data dict of a successful save_outputs. -/
structure SaveData where
  output_folder : String
  saved_files : List (String × String)
deriving DecidableEq, Repr

/-- save_outputs(output_base_path): copies the staged spreadsheets into the
excels subfolder, then calls the three writers inside one try block whose
except returns self.error; the first writer already ends in a raising
self.success, so the except branch is what the method always reaches. -/
def save_outputs (w : World) (output_base_path : Option String) :
    World × Outcome SaveData :=
  let w := pub w "saving" 0 "Çıktılar kaydediliyor..."
  let output_folder := match output_base_path with
    | some p => if p ≠ "" then p else get_output_folder w.analysis
    | none => get_output_folder w.analysis
  let w := pub w "saving" 20 "Excel dosyaları kaydediliyor..."
  let staged := w.fs.tempListing.filter (fun f => containsSub f ".xls")
  let w := { w with fs := { w.fs with
    outputFiles := w.fs.outputFiles
      ++ staged.map (fun f => output_folder ++ "/excels/" ++ f) } }
  let w := pub w "saving" 40 "Kullanıcı GIDleri kaydediliyor..."
  match save_user_gids_excel w output_folder with
  | (w, .raised e) =>
      (w, svcError _ ("Dosyalar kaydedilirken hata: " ++ e.toMessage))
  | (w, .ok r1) =>
      let w := pub w "saving" 60 "Unique GIDler kaydediliyor..."
      let path2 := output_folder ++ "/ad_log_gidleri.xlsx"
      let w := { w with fs := { w.fs with outputFiles := w.fs.outputFiles ++ [path2] } }
      let w := pub w "saving" 80 "Farklılık raporu kaydediliyor..."
      let path3 := output_folder ++ "/log.txt"
      let w := { w with fs := { w.fs with outputFiles := w.fs.outputFiles ++ [path3] } }
      let w := pub w "saving" 100 "Tüm çıktılar kaydedildi"
      (w, svcSuccess
        { output_folder := output_folder
          saved_files := [("user_gids_file", (r1.data.map (·.filepath)).getD ""),
                          ("unique_gids_file", path2), ("log_file", path3)] })

/-- cleanup_temp_directory: shutil.rmtree of the temp directory. -/
def cleanup_temp_directory (w : World) : World :=
  { w with fs := { w.fs with tempListing := [] } }

/-- Data of a fully successful run (the four stage payloads; their contents
are unreachable, see run_full_analysis). -/
structure RunData where
  download : DownloadData
  process : ProcessData
  compare : CompareData
  output : SaveData
deriving Repr

/-- The except-branch of run_full_analysis: set status failed, store str(e),
save, then `return self.error(...)`, which itself raises AttributeError. -/
def runExcept (w : World) (e : PyExc) : World × Outcome RunData :=
  let w := { w with analysis :=
    { w.analysis with status := .failed, error_message := some e.toMessage } }
  let w := save w
  (w, svcError _ ("Analiz sırasında hata: " ++ e.toMessage))

/-- A stage returned an unsuccessful ServiceResult: run_full_analysis stores
its message, sets failed, saves and returns that result (re-typed). -/
def runStageFail (w : World) (α : Type) (message : String) : World × Outcome α :=
  let w := { w with analysis :=
    { w.analysis with status := .failed, error_message := some message } }
  let w := save w
  (w, .ok { success := false, message := message, data := none })

/-- Steps 0-1 of run_full_analysis: the initializing progress publication
and the first status save (downloading). -/
def runInit (w : World) : World :=
  let w := pub w "initializing" 0 "Analiz başlatılıyor..."
  let w := { w with analysis := { w.analysis with status := .downloading } }
  save w

/-- run_full_analysis(source_path, year, month, output_path): the staged
orchestrator, with its single try/except wrapping steps 1-9. Every stage
method ends in self.success/self.error, which raise, so control always
reaches runExcept at the download step; the later steps are nevertheless
embedded faithfully. -/
def run_full_analysis (env : Env) (w : World) (source_path : String)
    (year month : Nat) (output_path : Option String) : World × Outcome RunData :=
  match download_files_to_temp (runInit w) source_path year month with
  | (w, .raised e) => runExcept w e
  | (w, .ok dres) =>
    if ¬ dres.success then runStageFail w _ dres.message
    else
    let w := { w with analysis := { w.analysis with status := .processing } }
    let w := save w
    match process_downloaded_files env w with
    | (w, .raised e) => runExcept w e
    | (w, .ok pres) =>
      if ¬ pres.success then runStageFail w _ pres.message
      else
      match pres.data with
      | none => runExcept w (.typeError "NoneType object is not subscriptable")
      | some pdata =>
        let w := { w with analysis := { w.analysis with
          status := .comparing
          processed_files_count := pdata.processed_files
          total_gids_found := pdata.total_gids
          unique_gids_count := pdata.unique_gids } }
        let w := save w
        match compare_with_user_gids w with
        | (w, .raised e) => runExcept w e
        | (w, .ok cres) =>
          if ¬ cres.success then runStageFail w _ cres.message
          else
          match cres.data with
          | none => runExcept w (.typeError "NoneType object is not subscriptable")
          | some cdata =>
            let w := { w with analysis := { w.analysis with
              discrepancy_count := cdata.unmatched_count } }
            let w := save w
            match save_outputs w output_path with
            | (w, .raised e) => runExcept w e
            | (w, .ok sres) =>
              if ¬ sres.success then runStageFail w _ sres.message
              else
              let w := { w with analysis := { w.analysis with
                status := .completed, error_message := none } }
              let w := save w
              let w := pub w "completed" 100 "Analiz başarıyla tamamlandı!"
              let w := cleanup_temp_directory w
              match dres.data, sres.data with
              | some dd, some sd =>
                  (w, svcSuccess
                    { download := dd, process := pdata, compare := cdata, output := sd })
              | _, _ => runExcept w (.typeError "NoneType object is not subscriptable")

/-- An attachment (filename, content reference, mimetype). -/
structure Attachment where
  filename : String
  content : String
  mimetype : String
deriving DecidableEq, Repr

/-- Data dict of a successful send_email. -/
structure SendData where
  message : String
deriving DecidableEq, Repr

/-- send_email(to_list, cc_list, subject, body, attachments) of the service.
EmailMessage and settings ARE imported in ad_log_service.py, so construction
succeeds; `transport` is the outcome of email.send() (none = delivered,
some msg = the transport exception). On delivery the analysis email fields,
the timestamp and status email_sent are stamped and saved before the final
raising self.success; on a transport error the except branch runs
self.error without touching the analysis. -/
def send_email (a : Analysis) (to_list cc_list : List String)
    (subject body : String) (_attachments : List Attachment)
    (transport : Option String) (now : Nat) :
    Analysis × List Status × Outcome SendData :=
  match transport with
  | some err =>
      (a, [], svcError _ ("Email gönderilirken hata: " ++ err))
  | none =>
      let a := { a with
        email_to := some (joinComma to_list)
        email_cc := if cc_list ≠ [] then some (joinComma cc_list) else none
        email_subject := some subject
        email_body := some body
        email_sent_at := some now
        status := .email_sent }
      (a, [a.status], svcSuccess { message := "Email başarıyla gönderildi" })

/-! ### Views (it_tools/views.py) -/

/-- The JSON payload the two AD-log endpoints answer with. -/
structure JsonResp where
  success : Bool
  error : Option String
  message : Option String
deriving DecidableEq, Repr

/-- The rejection the trigger returns for an already-completed run. -/
def alreadyProcessedResp : JsonResp :=
  { success := false, error := some "Bu analiz zaten tamamlanmış.", message := none }

/-- The first actions of the runAnalysis trigger past its guard: save
status processing, then construct a fresh ADLogService for the analysis. -/
def viewPre (w : World) : World :=
  let w := { w with analysis := { w.analysis with status := .processing } }
  let w := save w
  { w with svc := SvcState.init }

/-- Source-path resolution of the trigger: the configured PathDefinition
wins, else the legacy free-text field (with no output path). -/
def resolvePaths (a : Analysis) : Option String × Option String :=
  match a.source_path_config with
  | some cfg => (some cfg.source_path, some cfg.output_path)
  | none => (a.source_path, (none : Option String))

/-- Tail of the trigger: translate the pipeline outcome into the saved
status and the JSON answer (success branch, failure-result branch, and the
except branch that catches the raised exception). -/
def viewFinish (w : World) (out : Outcome RunData) : World × JsonResp :=
  match out with
  | .ok res =>
      if res.success then
        let w := { w with analysis := { w.analysis with status := .email_pending } }
        let w := save w
        (w, { success := true, error := none, message := some "Analiz başarıyla tamamlandı." })
      else
        let w := { w with analysis :=
          { w.analysis with status := .failed, error_message := some res.message } }
        let w := save w
        (w, { success := false, error := some res.message, message := none })
  | .raised e =>
      let w := { w with analysis :=
        { w.analysis with status := .failed, error_message := some e.toMessage } }
      let w := save w
      (w, { success := false, error := some e.toMessage, message := none })

/-- ad_log_run_analysis(request, pk): the runAnalysis trigger. Rejects runs
in completed, email_pending or email_sent; otherwise saves status
processing, resolves the source path, and runs the full pipeline inside a
try/except that persists failed plus str(e) on any exception. -/
def ad_log_run_analysis (env : Env) (w : World) : World × JsonResp :=
  if w.analysis.status = .completed ∨ w.analysis.status = .email_pending
    ∨ w.analysis.status = .email_sent then
    (w, alreadyProcessedResp)
  else
    let w := viewPre w
    let paths := resolvePaths w.analysis
    match paths.1 with
    | none =>
        (w, { success := false, error := some "Kaynak path tanımlanmamış.", message := none })
    | some sp =>
      if sp = "" then
        (w, { success := false, error := some "Kaynak path tanımlanmamış.", message := none })
      else
        let r := run_full_analysis env w sp w.analysis.year w.analysis.month paths.2
        viewFinish r.1 r.2

/-- Module-level names bound in it_tools/views.py (its import block lines
1-26 plus the module constant User). Neither EmailMessage nor settings is
among them: the send view references both without any import. -/
def adLogViewsGlobals : List String :=
  ["render", "redirect", "get_object_or_404", "ListView", "DetailView",
   "CreateView", "UpdateView", "DeleteView", "TemplateView",
   "LoginRequiredMixin", "login_required", "messages", "reverse_lazy",
   "reverse", "JsonResponse", "HttpResponse", "FileResponse",
   "StreamingHttpResponse", "require_POST", "require_GET", "ContentFile",
   "models", "get_user_model", "forms", "cache", "datetime", "json", "os",
   "time", "admin_required", "AdminRequiredMixin", "ADLogAnalysis",
   "ADLogSourcePath", "ProcessedADFile", "SystemGID", "GIDDiscrepancy",
   "ADLogEmailTemplate", "UsageType", "BulkUserImport", "ADLogService",
   "process_bulk_import", "Department", "Customer", "User"]

/-- The parsed JSON body of a sendEmail request. -/
structure SendReq where
  toAddr : String
  ccAddr : String
  subject : String
  body : String
deriving DecidableEq, Repr

/-- Recipient-list parsing of the view: split on commas, strip, drop
empties. -/
def splitRecipients (s : String) : List String :=
  (((splitOnChar ',' s.data).map (fun cs => pyStrip ⟨cs⟩)).filter (· ≠ ""))

/-- ad_log_send_email(request, pk): the sendEmail endpoint. `req` is none
when the request body is not valid JSON. After validation the view prepares
the attachments and then, inside try, evaluates the global name
EmailMessage: the views module never imports it, so a NameError is raised
and caught, and a failure JSON is returned; the analysis row is never
touched on that path. The Bool result records whether an email was sent. -/
def ad_log_send_email (a : Analysis) (req : Option SendReq) :
    Analysis × JsonResp × Bool :=
  match req with
  | none => (a, { success := false, error := some "Geçersiz veri formatı.", message := none }, false)
  | some d =>
    let to_list := splitRecipients d.toAddr
    let _cc_list := splitRecipients d.ccAddr
    if to_list = [] then
      (a, { success := false, error := some "En az bir alıcı belirtmelisiniz.", message := none }, false)
    else if d.subject = "" then
      (a, { success := false, error := some "Email konusu boş olamaz.", message := none }, false)
    else
      let _attachments :=
        ([a.log_file, a.unique_gids_file, a.user_checklist_file].filterMap id)
      if "EmailMessage" ∈ adLogViewsGlobals then
        if "settings" ∈ adLogViewsGlobals then
          let a := { a with status := .email_sent }
          (a, { success := true, error := none, message := some "Email başarıyla gönderildi." }, true)
        else
          (a, { success := false,
                error := some ("Email gönderilirken hata: "
                  ++ (PyExc.nameError "settings").toMessage),
                message := none }, false)
      else
        (a, { success := false,
              error := some ("Email gönderilirken hata: "
                ++ (PyExc.nameError "EmailMessage").toMessage),
              message := none }, false)

/-! ### Specification-side definitions (from the claim wording) -/

/-- The forward-progress relation of the claimed status invariant: a save
advances along the order (or stays), or jumps to failed. -/
def stepOk (s1 s2 : Status) : Prop :=
  s2 = .failed ∨ s1.idx ≤ s2.idx

instance (s1 s2 : Status) : Decidable (stepOk s1 s2) := by
  unfold stepOk; infer_instance

/-- The discrepancy rows persisted for one run. -/
def rowsFor (db : DB) (aid : Nat) : List DiscRow :=
  db.discRows.filter (fun r => r.analysisId = aid)

/-- Extractor as the claim words it: the identifier column is the first
header containing the known label case-insensitively, falling back to the
fixed 0-based index 3; a record is emitted for exactly the rows whose cell
there is non-empty after trimming, with the date inferred from the filename
suffix. -/
def extractSpec (filename : String) (sh : Sheet) : List GIDRecord :=
  let i := (findHeaderIdx (fun c => containsSub (pyLower c) gidLabel) sh.headers).getD 3
  sh.rows.filterMap (fun r =>
    match r.getD i none with
    | none => none
    | some v =>
        if pyStrip v ≠ "" then
          some { gid := pyStrip v, source_file := filename, date := inferredDate filename }
        else none)

/-! ### Helper lemmas -/

theorem findHeaderIdx_congr {p q : String → Bool} :
    ∀ {l : List String}, (∀ c ∈ l, p c = q c) →
    findHeaderIdx p l = findHeaderIdx q l := by
  intro l
  induction l with
  | nil => intro _; rfl
  | cons c rest ih =>
      intro h
      simp only [findHeaderIdx]
      rw [h c (by simp)]
      by_cases hq : q c
      · simp [hq]
      · simp only [hq, if_neg, Bool.false_eq_true, if_false]
        rw [ih (fun x hx => h x (by simp [hx]))]

theorem downloadStep_fields (total : Nat) (acc : World × List String × List String × Nat)
    (b : String) :
    (downloadStep total acc b).1.analysis = acc.1.analysis ∧
    (downloadStep total acc b).1.db = acc.1.db ∧
    (downloadStep total acc b).1.svc = acc.1.svc ∧
    (downloadStep total acc b).1.statusTrace = acc.1.statusTrace ∧
    (downloadStep total acc b).1.fs.sourceListing = acc.1.fs.sourceListing ∧
    (downloadStep total acc b).1.fs.outputFiles = acc.1.fs.outputFiles ∧
    (downloadStep total acc b).2.1
      = acc.2.1 ++ (probeDay acc.1.fs.sourceListing b).toList ∧
    (∀ p ∈ (downloadStep total acc b).1.progressTrace,
      p ∈ acc.1.progressTrace ∨ p.step = "downloading") := by
  obtain ⟨w, dl, nf, idx⟩ := acc
  cases hp : probeDay w.fs.sourceListing b with
  | none =>
      simp only [downloadStep, hp]
      refine ⟨by trivial, by trivial, by trivial, by trivial, by trivial, by trivial,
        by simp, fun p hp' => Or.inl hp'⟩
  | some file =>
      simp only [downloadStep, hp]
      refine ⟨by trivial, by trivial, by trivial, by trivial, by trivial, by trivial,
        by simp, ?_⟩
      intro p hp'
      simp only [pub, List.mem_append] at hp'
      rcases hp' with h | h
      · exact Or.inl h
      · simp at h; subst h; exact Or.inr rfl

theorem foldl_downloadStep_inv (total : Nat) (l : List String) :
    ∀ (w : World) (dl nf : List String) (idx : Nat),
    (l.foldl (downloadStep total) (w, dl, nf, idx)).1.analysis = w.analysis ∧
    (l.foldl (downloadStep total) (w, dl, nf, idx)).1.db = w.db ∧
    (l.foldl (downloadStep total) (w, dl, nf, idx)).1.svc = w.svc ∧
    (l.foldl (downloadStep total) (w, dl, nf, idx)).1.statusTrace = w.statusTrace ∧
    (l.foldl (downloadStep total) (w, dl, nf, idx)).1.fs.sourceListing = w.fs.sourceListing ∧
    (l.foldl (downloadStep total) (w, dl, nf, idx)).1.fs.outputFiles = w.fs.outputFiles ∧
    (l.foldl (downloadStep total) (w, dl, nf, idx)).2.1
      = dl ++ l.filterMap (probeDay w.fs.sourceListing) ∧
    (∀ p ∈ (l.foldl (downloadStep total) (w, dl, nf, idx)).1.progressTrace,
      p ∈ w.progressTrace ∨ p.step = "downloading") := by
  induction l with
  | nil =>
      intro w dl nf idx
      exact ⟨rfl, rfl, rfl, rfl, rfl, rfl, by simp, fun p hp' => Or.inl hp'⟩
  | cons b rest ih =>
      intro w dl nf idx
      rw [List.foldl_cons]
      obtain ⟨s1, s2, s3, s4, s5, s6, s7, s8⟩ :=
        downloadStep_fields total (w, dl, nf, idx) b
      rcases hr : downloadStep total (w, dl, nf, idx) b with ⟨w', dl', nf', idx'⟩
      rw [hr] at s1 s2 s3 s4 s5 s6 s7 s8
      dsimp only at s1 s2 s3 s4 s5 s6 s7 s8
      obtain ⟨h1, h2, h3, h4, h5, h6, h7, h8⟩ := ih w' dl' nf' idx'
      refine ⟨h1.trans s1, h2.trans s2, h3.trans s3, h4.trans s4, h5.trans s5,
        h6.trans s6, ?_, ?_⟩
      · rw [h7, s7, s5, List.filterMap_cons]
        cases probeDay w.fs.sourceListing b <;> simp
      · intro p hp'
        rcases h8 p hp' with h | h
        · exact s8 p h
        · exact Or.inr h

theorem downloadRun_inv (w : World) (expected : List String) :
    (downloadRun w expected).1.analysis = w.analysis ∧
    (downloadRun w expected).1.db = w.db ∧
    (downloadRun w expected).1.svc = w.svc ∧
    (downloadRun w expected).1.statusTrace = w.statusTrace ∧
    (downloadRun w expected).1.fs.sourceListing = w.fs.sourceListing ∧
    (downloadRun w expected).1.fs.outputFiles = w.fs.outputFiles ∧
    (downloadRun w expected).2.1 = expected.filterMap (probeDay w.fs.sourceListing) ∧
    (∀ p ∈ (downloadRun w expected).1.progressTrace,
      p ∈ w.progressTrace ∨ p.step = "downloading") := by
  have h := foldl_downloadStep_inv expected.length expected w [] [] 1
  simpa [downloadRun] using h

theorem download_shape (w : World) (sp : String) (y m : Nat) :
    (download_files_to_temp w sp y m).1.analysis = w.analysis ∧
    (download_files_to_temp w sp y m).1.db = w.db ∧
    (download_files_to_temp w sp y m).1.svc = w.svc ∧
    (download_files_to_temp w sp y m).1.statusTrace = w.statusTrace ∧
    (download_files_to_temp w sp y m).1.fs.outputFiles = w.fs.outputFiles ∧
    (∀ p ∈ (download_files_to_temp w sp y m).1.progressTrace,
      p ∈ w.progressTrace ∨ p.step = "downloading") ∧
    ∃ a, (download_files_to_temp w sp y m).2 = .raised (.attributeError a) := by
  simp only [download_files_to_temp]
  by_cases hs : w.fs.sourceExists
  · rw [if_neg (by simp [pub, hs])]
    rcases hr : downloadRun
        (pub w "downloading" 0 "Dosyalar fileserverdan indiriliyor...")
        (get_expected_filenames y m) with ⟨w1, dl, nf, i⟩
    obtain ⟨h1, h2, h3, h4, h5, h6, h7, h8⟩ :=
      downloadRun_inv (pub w "downloading" 0 "Dosyalar fileserverdan indiriliyor...")
        (get_expected_filenames y m)
    rw [hr] at h1 h2 h3 h4 h5 h6 h7 h8
    dsimp only at h1 h2 h3 h4 h5 h6 h7 h8
    simp only [pub] at h1 h2 h3 h4 h5 h6 h7 h8
    by_cases hd : dl = []
    · simp only [hr, hd, if_pos rfl]
      refine ⟨h1, h2, h3, h4, h6, ?_, "error", rfl⟩
      intro p hp'
      rcases h8 p hp' with h | h
      · rcases List.mem_append.mp h with h' | h'
        · exact Or.inl h'
        · simp at h'; subst h'; exact Or.inr rfl
      · exact Or.inr h
    · simp only [hr, if_neg hd]
      refine ⟨h1, h2, h3, h4, h6, ?_, "success", rfl⟩
      intro p hp'
      simp only [pub, List.mem_append] at hp'
      rcases hp' with h | h
      · rcases h8 p h with h' | h'
        · rcases List.mem_append.mp h' with h'' | h''
          · exact Or.inl h''
          · simp at h''; subst h''; exact Or.inr rfl
        · exact Or.inr h'
      · simp at h; subst h; exact Or.inr rfl
  · rw [if_pos (by simp [pub, hs])]
    refine ⟨rfl, rfl, rfl, rfl, rfl, ?_, "error", rfl⟩
    intro p hp'
    simp only [pub, List.mem_append] at hp'
    rcases hp' with h | h
    · exact Or.inl h
    · simp at h; subst h; exact Or.inr rfl

theorem runInit_fields (w : World) :
    (runInit w).analysis = { w.analysis with status := .downloading } ∧
    (runInit w).db = w.db ∧ (runInit w).svc = w.svc ∧ (runInit w).fs = w.fs ∧
    (runInit w).statusTrace = w.statusTrace ++ [Status.downloading] ∧
    (runInit w).progressTrace
      = w.progressTrace ++ [⟨"initializing", 0, "Analiz başlatılıyor..."⟩] := by
  refine ⟨rfl, rfl, rfl, rfl, rfl, rfl⟩

theorem run_full_shape (env : Env) (w : World) (sp : String) (y m : Nat)
    (op : Option String) :
    (run_full_analysis env w sp y m op).1.analysis.status = Status.failed ∧
    (∃ a, (run_full_analysis env w sp y m op).1.analysis.error_message
      = some ((PyExc.attributeError a).toMessage)) ∧
    (run_full_analysis env w sp y m op).1.db = w.db ∧
    (run_full_analysis env w sp y m op).1.svc = w.svc ∧
    (run_full_analysis env w sp y m op).1.statusTrace
      = w.statusTrace ++ [Status.downloading, Status.failed] ∧
    (∀ p ∈ (run_full_analysis env w sp y m op).1.progressTrace,
      p ∈ w.progressTrace ∨ p.step = "initializing" ∨ p.step = "downloading") ∧
    (run_full_analysis env w sp y m op).2
      = Outcome.raised (PyExc.attributeError "error") := by
  obtain ⟨d1, d2, d3, d4, d5, d6, ⟨a, d7⟩⟩ := download_shape (runInit w) sp y m
  obtain ⟨i1, i2, i3, i4, i5, i6⟩ := runInit_fields w
  rcases hd : download_files_to_temp (runInit w) sp y m with ⟨w1, out⟩
  rw [hd] at d1 d2 d3 d4 d5 d6 d7
  dsimp only at d1 d2 d3 d4 d5 d6 d7
  subst d7
  simp only [run_full_analysis, hd, runExcept, svcError, save]
  refine ⟨by trivial, ⟨a, by trivial⟩, ?_, ?_, ?_, ?_, by trivial⟩
  · exact d2.trans i2
  · exact d3.trans i3
  · show w1.statusTrace ++ [Status.failed] = _
    rw [d4, i5, List.append_assoc]
    rfl
  · intro p hp'
    rcases d6 p hp' with h | h
    · rw [i6] at h
      rcases List.mem_append.mp h with h' | h'
      · exact Or.inl h'
      · simp at h'; subst h'; exact Or.inr (Or.inl rfl)
    · exact Or.inr (Or.inr h)

theorem viewPre_fields (w : World) :
    (viewPre w).analysis = { w.analysis with status := .processing } ∧
    (viewPre w).db = w.db ∧ (viewPre w).fs = w.fs ∧
    (viewPre w).svc = SvcState.init ∧
    (viewPre w).statusTrace = w.statusTrace ++ [Status.processing] ∧
    (viewPre w).progressTrace = w.progressTrace :=
  ⟨rfl, rfl, rfl, rfl, rfl, rfl⟩

theorem view_pipeline_tail (env : Env) (w : World) (sp : String) (y m : Nat)
    (op : Option String) :
    (viewFinish (run_full_analysis env w sp y m op).1
        (run_full_analysis env w sp y m op).2).1.statusTrace
      = w.statusTrace ++ [Status.downloading, Status.failed, Status.failed] ∧
    (viewFinish (run_full_analysis env w sp y m op).1
        (run_full_analysis env w sp y m op).2).1.analysis.status = Status.failed ∧
    (viewFinish (run_full_analysis env w sp y m op).1
        (run_full_analysis env w sp y m op).2).1.analysis.error_message
      = some ((PyExc.attributeError "error").toMessage) ∧
    (viewFinish (run_full_analysis env w sp y m op).1
        (run_full_analysis env w sp y m op).2).2
      = { success := false, error := some ((PyExc.attributeError "error").toMessage),
          message := none } ∧
    (viewFinish (run_full_analysis env w sp y m op).1
        (run_full_analysis env w sp y m op).2).1.db = w.db ∧
    (viewFinish (run_full_analysis env w sp y m op).1
        (run_full_analysis env w sp y m op).2).1.svc = w.svc := by
  obtain ⟨r1, r2, r3, r4, r5, r6, r7⟩ := run_full_shape env w sp y m op
  rcases hrf : run_full_analysis env w sp y m op with ⟨w2, out⟩
  rw [hrf] at r3 r4 r5 r7
  dsimp only at r3 r4 r5 r7
  subst r7
  refine ⟨?_, ?_, ?_, ?_, ?_, ?_⟩
  · show (save _).statusTrace = _
    simp only [save, viewFinish]
    rw [r5]
    simp
  · rfl
  · rfl
  · rfl
  · exact r3
  · exact r4

theorem view_cases (env : Env) (w : World) :
    (ad_log_run_analysis env w).1.statusTrace = w.statusTrace ∨
    (ad_log_run_analysis env w).1.statusTrace = w.statusTrace ++ [Status.processing] ∨
    (ad_log_run_analysis env w).1.statusTrace
      = w.statusTrace ++ [Status.processing, Status.downloading,
          Status.failed, Status.failed] := by
  by_cases hg : (w.analysis.status = .completed ∨ w.analysis.status = .email_pending
      ∨ w.analysis.status = .email_sent)
  · left
    simp [ad_log_run_analysis, hg]
  · simp only [ad_log_run_analysis, if_neg hg]
    obtain ⟨-, -, -, -, p5, -⟩ := viewPre_fields w
    rcases hq : (resolvePaths (viewPre w).analysis).1 with _ | sp
    · right; left
      exact p5
    · dsimp only
      by_cases hse : sp = ""
      · rw [if_pos hse]
        right; left
        exact p5
      · rw [if_neg hse]
        right; right
        obtain ⟨t1, -, -, -, -, -⟩ := view_pipeline_tail env (viewPre w) sp
          ((viewPre w).analysis.year) ((viewPre w).analysis.month)
          ((resolvePaths (viewPre w).analysis).2)
        rw [t1, p5, List.append_assoc]
        rfl

theorem view_reject (env : Env) (w : World)
    (hg : w.analysis.status = .completed ∨ w.analysis.status = .email_pending
      ∨ w.analysis.status = .email_sent) :
    ad_log_run_analysis env w = (w, alreadyProcessedResp) := by
  simp [ad_log_run_analysis, hg]

theorem view_nonguard (env : Env) (w : World)
    (hg : ¬ (w.analysis.status = .completed ∨ w.analysis.status = .email_pending
      ∨ w.analysis.status = .email_sent)) :
    ((ad_log_run_analysis env w).1.statusTrace = w.statusTrace ++ [Status.processing] ∨
     (ad_log_run_analysis env w).1.statusTrace
       = w.statusTrace ++ [Status.processing, Status.downloading,
           Status.failed, Status.failed]) ∧
    ((ad_log_run_analysis env w).2
        = { success := false, error := some "Kaynak path tanımlanmamış.", message := none } ∨
     (ad_log_run_analysis env w).2
        = { success := false, error := some ((PyExc.attributeError "error").toMessage),
            message := none }) ∧
    (ad_log_run_analysis env w).1.db = w.db := by
  simp only [ad_log_run_analysis, if_neg hg]
  obtain ⟨-, p2, -, -, p5, -⟩ := viewPre_fields w
  rcases hq : (resolvePaths (viewPre w).analysis).1 with _ | sp
  · exact ⟨Or.inl p5, Or.inl rfl, p2⟩
  · dsimp only
    by_cases hse : sp = ""
    · rw [if_pos hse]
      exact ⟨Or.inl p5, Or.inl rfl, p2⟩
    · rw [if_neg hse]
      obtain ⟨t1, -, -, t4, t5, -⟩ := view_pipeline_tail env (viewPre w) sp
        ((viewPre w).analysis.year) ((viewPre w).analysis.month)
        ((resolvePaths (viewPre w).analysis).2)
      refine ⟨Or.inr ?_, Or.inr t4, t5.trans p2⟩
      rw [t1, p5, List.append_assoc]
      rfl

theorem compare_fields (w : World) (hne : ¬ w.svc.gids_from_files = []) :
    (compare_with_user_gids w).1.db.discRows
      = w.db.discRows.filter (fun r => r.analysisId ≠ w.analysis.id)
        ++ (w.svc.gids_from_files.filter
              (fun g => ¬ g ∈ userGidSet w.db.users)).map
             (mkDiscRow w.analysis.id w.svc.gid_records) ∧
    (compare_with_user_gids w).1.db.users = w.db.users ∧
    (compare_with_user_gids w).1.db.procRows = w.db.procRows ∧
    (compare_with_user_gids w).1.analysis = w.analysis ∧
    (compare_with_user_gids w).1.svc = w.svc ∧
    (compare_with_user_gids w).1.fs = w.fs ∧
    (compare_with_user_gids w).1.statusTrace = w.statusTrace ∧
    (compare_with_user_gids w).2 = Outcome.raised (PyExc.attributeError "success") := by
  simp only [compare_with_user_gids, pub]
  rw [if_neg hne]
  exact ⟨rfl, rfl, rfl, rfl, rfl, rfl, rfl, rfl⟩

theorem compare_empty (w : World) (h : w.svc.gids_from_files = []) :
    (compare_with_user_gids w).1.db = w.db ∧
    (compare_with_user_gids w).1.analysis = w.analysis ∧
    (compare_with_user_gids w).1.svc = w.svc ∧
    (compare_with_user_gids w).1.fs = w.fs ∧
    (compare_with_user_gids w).1.statusTrace = w.statusTrace ∧
    (compare_with_user_gids w).2 = Outcome.raised (PyExc.attributeError "error") := by
  simp only [compare_with_user_gids, pub]
  rw [if_pos h]
  exact ⟨rfl, rfl, rfl, rfl, rfl, rfl⟩

theorem compare_rows (w : World) (hne : ¬ w.svc.gids_from_files = []) :
    rowsFor (compare_with_user_gids w).1.db w.analysis.id
      = (w.svc.gids_from_files.filter (fun g => ¬ g ∈ userGidSet w.db.users)).map
          (mkDiscRow w.analysis.id w.svc.gid_records) := by
  obtain ⟨c1, -, -, -, -, -, -, -⟩ := compare_fields w hne
  unfold rowsFor
  rw [c1, List.filter_append]
  have h1 : (w.db.discRows.filter (fun r => decide (r.analysisId ≠ w.analysis.id))).filter
      (fun r => decide (r.analysisId = w.analysis.id)) = [] := by
    rw [List.filter_eq_nil_iff]
    intro r hr
    have h2 := (List.mem_filter.mp hr).2
    simp at h2 ⊢
    exact h2
  have h2 : ((w.svc.gids_from_files.filter
        (fun g => decide (¬ g ∈ userGidSet w.db.users))).map
          (mkDiscRow w.analysis.id w.svc.gid_records)).filter
      (fun r => decide (r.analysisId = w.analysis.id))
      = (w.svc.gids_from_files.filter
          (fun g => decide (¬ g ∈ userGidSet w.db.users))).map
            (mkDiscRow w.analysis.id w.svc.gid_records) := by
    rw [List.filter_eq_self]
    intro r hr
    rcases List.mem_map.mp hr with ⟨g, -, hgr⟩
    subst hgr
    simp [mkDiscRow]
  rw [h1, h2, List.nil_append]

theorem compare_rows_gids (w : World) (hne : ¬ w.svc.gids_from_files = []) :
    (rowsFor (compare_with_user_gids w).1.db w.analysis.id).map (fun r => r.gid)
      = w.svc.gids_from_files.filter (fun g => ¬ g ∈ userGidSet w.db.users) := by
  rw [compare_rows w hne, List.map_map]
  have : ((fun r => DiscRow.gid r) ∘ mkDiscRow w.analysis.id w.svc.gid_records)
      = fun g => g := by
    funext g
    rfl
  rw [this]
  exact List.map_id _

theorem processStep_fields (env : Env) (acc : World × Nat × Nat) (file : String) :
    (processStep env acc file).1.analysis = acc.1.analysis ∧
    (processStep env acc file).1.db = acc.1.db ∧
    (processStep env acc file).1.fs = acc.1.fs ∧
    (processStep env acc file).1.statusTrace = acc.1.statusTrace ∧
    (processStep env acc file).1.progressTrace = acc.1.progressTrace := by
  obtain ⟨w, pc, tg⟩ := acc
  by_cases hg : extract_gids_from_column_d file (env.sheets file) = []
  · simp only [processStep]
    rw [if_neg (by simp [hg])]
    exact ⟨rfl, rfl, rfl, rfl, rfl⟩
  · simp only [processStep]
    rw [if_pos hg]
    exact ⟨rfl, rfl, rfl, rfl, rfl⟩

theorem foldl_processStep_inv (env : Env) (l : List String) :
    ∀ (w : World) (pc tg : Nat),
    (l.foldl (processStep env) (w, pc, tg)).1.analysis = w.analysis ∧
    (l.foldl (processStep env) (w, pc, tg)).1.db = w.db ∧
    (l.foldl (processStep env) (w, pc, tg)).1.fs = w.fs ∧
    (l.foldl (processStep env) (w, pc, tg)).1.statusTrace = w.statusTrace ∧
    (l.foldl (processStep env) (w, pc, tg)).1.progressTrace = w.progressTrace := by
  induction l with
  | nil => intro w pc tg; exact ⟨rfl, rfl, rfl, rfl, rfl⟩
  | cons f rest ih =>
      intro w pc tg
      rw [List.foldl_cons]
      obtain ⟨s1, s2, s3, s4, s5⟩ := processStep_fields env (w, pc, tg) f
      rcases hr : processStep env (w, pc, tg) f with ⟨w', pc', tg'⟩
      rw [hr] at s1 s2 s3 s4 s5
      dsimp only at s1 s2 s3 s4 s5
      obtain ⟨h1, h2, h3, h4, h5⟩ := ih w' pc' tg'
      exact ⟨h1.trans s1, h2.trans s2, h3.trans s3, h4.trans s4, h5.trans s5⟩

theorem process_fields (env : Env) (w : World) :
    (process_downloaded_files env w).1.analysis = w.analysis ∧
    (process_downloaded_files env w).1.db = w.db ∧
    (process_downloaded_files env w).1.fs = w.fs ∧
    (process_downloaded_files env w).1.statusTrace = w.statusTrace := by
  simp only [process_downloaded_files, pub]
  by_cases hx : tempExcelFiles w.fs.tempListing = []
  · rw [if_pos hx]
    exact ⟨rfl, rfl, rfl, rfl⟩
  · rw [if_neg hx]
    rcases hr : (tempExcelFiles w.fs.tempListing).foldl (processStep env)
        ({ w with progressTrace := w.progressTrace
            ++ [⟨"processing", 0, "Excel dosyaları işleniyor..."⟩] }, 0, 0)
      with ⟨w', pc', tg'⟩
    obtain ⟨h1, h2, h3, h4, h5⟩ := foldl_processStep_inv env
      (tempExcelFiles w.fs.tempListing)
      { w with progressTrace := w.progressTrace
          ++ [⟨"processing", 0, "Excel dosyaları işleniyor..."⟩] } 0 0
    rw [hr] at h1 h2 h3 h4 h5
    dsimp only at h1 h2 h3 h4 h5
    exact ⟨h1, h2, h3, h4⟩

theorem pyStrip_empty : pyStrip "" = "" := rfl

theorem cellGid_eq (row : List (Option String)) (i : Nat) :
    cellGid row i = (row.getD i none).bind
      (fun v => if pyStrip v ≠ "" then some (pyStrip v) else none) := by
  unfold cellGid
  cases h : row.getD i none with
  | none => rfl
  | some v =>
      by_cases hv : v = ""
      · subst hv
        simp [pyStrip_empty]
      · simp only [if_pos hv]
        rfl

theorem locate_of_wf (headers : List String) (hH : ∀ c ∈ headers, c ≠ "") :
    locateGidColumn headers
      = match findHeaderIdx (fun c => containsSub (pyLower c) gidLabel) headers with
        | some i => some i
        | none => if headers.length ≥ 4 then some 3 else none := by
  unfold locateGidColumn
  rw [findHeaderIdx_congr (p := fun c => c ≠ "" && containsSub (pyLower c) gidLabel)
    (q := fun c => containsSub (pyLower c) gidLabel) (fun c hc => by simp [hH c hc])]
  cases findHeaderIdx (fun c => containsSub (pyLower c) gidLabel) headers with
  | some i => rfl
  | none =>
      by_cases h4 : headers.length ≥ 4
      · rw [if_pos h4, if_pos h4]
        dsimp only
        rw [if_pos]
        have h3 : 3 < headers.length := by omega
        have : headers.getD 3 "" = headers.get ⟨3, h3⟩ := by
          simp [List.getD_eq_getElem?_getD, List.getElem?_eq_getElem h3]
        rw [this]
        exact hH _ (List.get_mem headers 3 h3)
      · rw [if_neg h4, if_neg h4]

theorem filterMap_congr_mem {α β : Type} {f g : α → Option β} :
    ∀ {l : List α}, (∀ a ∈ l, f a = g a) → l.filterMap f = l.filterMap g := by
  intro l
  induction l with
  | nil => intro _; rfl
  | cons a rest ih =>
      intro h
      rw [List.filterMap_cons, List.filterMap_cons, h a (by simp),
        ih (fun x hx => h x (by simp [hx]))]

/-! ### Concrete fixtures used by counterexamples and witnesses -/

/-- A configured PathDefinition. -/
def cfg0 : PathConfig := { source_path := "/fileserver/adlogs", output_path := "/outputs/adlog" }

/-- A freshly created run for January 2025. -/
def analysis0 : Analysis :=
  { id := 1, name := "Ocak analizi", year := 2025, month := 1,
    source_path_config := some cfg0, source_path := none,
    status := .pending, error_message := none,
    processed_files_count := 0, total_gids_found := 0, unique_gids_count := 0,
    discrepancy_count := 0, email_to := none, email_cc := none,
    email_subject := none, email_body := none, email_sent_at := none,
    log_file := none, unique_gids_file := none, user_checklist_file := none }

/-- One system user whose gid is G100. -/
def db0 : DB := { users := [⟨some "G100"⟩], discRows := [], procRows := [] }

/-- A file store whose source directory does not exist. -/
def fs0 : FS := { sourceExists := false, sourceListing := [], tempListing := [], outputFiles := [] }

/-- The world of a pending run pointed at a missing source directory. -/
def w0 : World :=
  { analysis := analysis0, db := db0, fs := fs0, svc := SvcState.init,
    statusTrace := [], progressTrace := [] }

/-- An environment in which no staged file parses. -/
def env0 : Env := { sheets := fun _ => none }

/-- A staged export sheet: the identifier column is found by header. -/
def sheet5 : Sheet :=
  { headers := ["CreationTime", "UserId", "Operation", "MatchedQueryElements"],
    rows := [[some "t1", some "u1", some "op", some " G200 "]] }

/-- The environment in which exactly the January 1 export parses. -/
def env5 : Env :=
  { sheets := fun f => if f = "EventExport_2025-01-01.xlsx" then some sheet5 else none }

/-- A world whose temp directory holds one staged export. -/
def w5 : World :=
  { w0 with fs :=
      { sourceExists := true, sourceListing := [],
        tempListing := ["EventExport_2025-01-01.xlsx"], outputFiles := [] } }

/-- A world with an empty extraction state but an existing discrepancy row
from an earlier reconciliation of the same run. -/
def wEmpty : World :=
  { w0 with db :=
      { users := [⟨some "G100"⟩],
        discRows := [⟨1, "OLD", "missing_in_system", "d", none⟩], procRows := [] } }

/-- The w0 run again, already in status processing. -/
def wProc : World :=
  { w0 with analysis := { analysis0 with status := .processing } }

/-- A state in which three records for two distinct gids were extracted
(G200 from two files, G300 from one) while the system knows G100 and G300. -/
def wCmp : World :=
  { w0 with
    db := { users := [⟨some "G100"⟩, ⟨some "G300"⟩, ⟨none⟩, ⟨some ""⟩],
            discRows := [⟨1, "OLD", "missing_in_system", "d", none⟩,
                         ⟨2, "KEEP", "missing_in_system", "d", none⟩],
            procRows := [] },
    svc := { gids_from_files := ["G200", "G300"],
             gid_records :=
               [⟨"G200", "EventExport_2025-01-01.xlsx", some "2025-01-01"⟩,
                ⟨"G200", "EventExport_2025-01-02.xlsx", some "2025-01-02"⟩,
                ⟨"G300", "EventExport_2025-01-02.xlsx", some "2025-01-02"⟩],
             processed_files :=
               ["EventExport_2025-01-01.xlsx", "EventExport_2025-01-02.xlsx"] } }

/-- A run that finished its analysis and waits for the notification. -/
def analysisDone : Analysis := { analysis0 with status := .completed }

/-- A valid sendEmail request body. -/
def req0 : SendReq :=
  { toAddr := "it@example.com, ops@example.com", ccAddr := "", subject := "AD Log Raporu",
    body := "Rapor ektedir." }

theorem extract_row_eq (filename : String) (i : Nat) (r : List (Option String)) :
    (cellGid r i).map (fun g =>
        ({ gid := g, source_file := filename, date := inferredDate filename } : GIDRecord))
      = match r.getD i none with
        | none => none
        | some v =>
            if pyStrip v ≠ "" then
              some ({ gid := pyStrip v, source_file := filename,
                      date := inferredDate filename } : GIDRecord)
            else none := by
  rw [cellGid_eq]
  cases r.getD i none with
  | none => rfl
  | some v =>
      by_cases ht : pyStrip v ≠ ""
      · show ((if pyStrip v ≠ "" then some (pyStrip v) else none).map _) = _
        rw [if_pos ht]
        show _ = if pyStrip v ≠ "" then _ else _
        rw [if_pos ht]
        rfl
      · show ((if pyStrip v ≠ "" then some (pyStrip v) else none).map _) = _
        rw [if_neg ht]
        show _ = if pyStrip v ≠ "" then _ else _
        rw [if_neg ht]
        rfl

/-! ### Claims -/

/-- C8: the extractor locates the identifier column by a case-insensitive
header match against the known label (matchedqueryelements occurring in the
lowercased header) and, when no header matches, falls back to the fixed
0-based column index 3 (the 4th column); it emits a record
(identifier, source_file, inferred_date) for exactly those rows whose cell
value is non-empty after trimming, with inferred_date parsed from the
filename date suffix. Formally: on any well-formed DataFrame (uniform row
width and non-empty column labels, which pandas guarantees by renaming
blank headers), the embedded extractor coincides pointwise with the
claim-side specification extractSpec. -/
theorem C8_extractor_locates_column_and_emits (filename : String) (sh : Sheet)
    (hW : ∀ r ∈ sh.rows, r.length = sh.headers.length)
    (hH : ∀ c ∈ sh.headers, ¬ c = "") :
    extract_gids_from_column_d filename (some sh) = extractSpec filename sh := by
  unfold extract_gids_from_column_d extractSpec
  dsimp only
  rw [locate_of_wf sh.headers hH]
  cases hf : findHeaderIdx (fun c => containsSub (pyLower c) gidLabel) sh.headers with
  | some i =>
      dsimp only
      exact filterMap_congr_mem (fun r _ => extract_row_eq filename i r)
  | none =>
      by_cases h4 : sh.headers.length ≥ 4
      · rw [if_pos h4]
        dsimp only
        exact filterMap_congr_mem (fun r _ => extract_row_eq filename 3 r)
      · rw [if_neg h4]
        dsimp only
        symm
        rw [List.filterMap_eq_nil_iff]
        intro r hr
        have hlen := hW r hr
        have hnone : r.getD 3 none = none := by
          apply List.getD_eq_default
          omega
        rw [Option.getD_none, hnone]

/-- C8 witness: a concrete sheet with a matching header; the hypotheses
hold and the extractor equals the specification there, both evaluating to
the single trimmed record of the non-empty cell. -/
theorem C8_witness :
    (∀ r ∈ sheet5.rows, r.length = sheet5.headers.length) ∧
    (∀ c ∈ sheet5.headers, ¬ c = "") ∧
    extract_gids_from_column_d "EventExport_2025-01-01.xlsx" (some sheet5)
      = extractSpec "EventExport_2025-01-01.xlsx" sheet5 ∧
    extract_gids_from_column_d "EventExport_2025-01-01.xlsx" (some sheet5)
      = [{ gid := "G200", source_file := "EventExport_2025-01-01.xlsx",
           date := some "2025-01-01" }] :=
  ⟨by decide, by decide,
   C8_extractor_locates_column_and_emits "EventExport_2025-01-01.xlsx" sheet5
     (by decide) (by decide), by decide⟩

/-- C2: persisting reconciliation results first deletes all existing
discrepancy rows of the run and then inserts one row per missing
identifier: the rows of the run after the call are exactly the new
generation (independent of whatever rows existed before), their
identifiers are exactly the missing set with no duplicates, rows of other
runs are untouched, and a second call on the unchanged state leaves the
identical row list — no accumulation. -/
theorem C2_replace_then_insert_idempotent (w : World)
    (hne : ¬ w.svc.gids_from_files = [])
    (hnd : w.svc.gids_from_files.Nodup) :
    rowsFor (compare_with_user_gids w).1.db w.analysis.id
      = (w.svc.gids_from_files.filter (fun g => ¬ g ∈ userGidSet w.db.users)).map
          (mkDiscRow w.analysis.id w.svc.gid_records) ∧
    (rowsFor (compare_with_user_gids w).1.db w.analysis.id).map (fun r => r.gid)
      = w.svc.gids_from_files.filter (fun g => ¬ g ∈ userGidSet w.db.users) ∧
    (rowsFor (compare_with_user_gids w).1.db w.analysis.id).length
      = (w.svc.gids_from_files.filter (fun g => ¬ g ∈ userGidSet w.db.users)).length ∧
    ((rowsFor (compare_with_user_gids w).1.db w.analysis.id).map (fun r => r.gid)).Nodup ∧
    (∀ r ∈ (compare_with_user_gids w).1.db.discRows,
      ¬ r.analysisId = w.analysis.id → r ∈ w.db.discRows) ∧
    rowsFor (compare_with_user_gids (compare_with_user_gids w).1).1.db w.analysis.id
      = rowsFor (compare_with_user_gids w).1.db w.analysis.id := by
  have h1 := compare_rows w hne
  have hg := compare_rows_gids w hne
  obtain ⟨c1, c2, c3, c4, c5, c6, c7, c8⟩ := compare_fields w hne
  refine ⟨h1, hg, ?_, ?_, ?_, ?_⟩
  · rw [h1, List.length_map]
  · rw [hg]
    exact hnd.filter _
  · intro r hr hne'
    rw [c1] at hr
    rcases List.mem_append.mp hr with h | h
    · exact (List.mem_filter.mp h).1
    · rcases List.mem_map.mp h with ⟨g, -, hgr⟩
      rw [← hgr] at hne'
      exact absurd rfl hne'
  · have hne2 : ¬ (compare_with_user_gids w).1.svc.gids_from_files = [] := by
      rw [c5]; exact hne
    have h2 := compare_rows (compare_with_user_gids w).1 hne2
    rw [c4, c5, c2] at h2
    exact h2.trans h1.symm

/-- C2 witness: the concrete state wCmp (distinct extracted identifiers
G200 and G300, system set G100 and G300); the reconciler leaves exactly one
row, for G200, and a second call leaves the identical generation. -/
theorem C2_witness :
    (¬ wCmp.svc.gids_from_files = []) ∧ wCmp.svc.gids_from_files.Nodup ∧
    (rowsFor (compare_with_user_gids wCmp).1.db wCmp.analysis.id).map (fun r => r.gid)
      = ["G200"] ∧
    rowsFor (compare_with_user_gids (compare_with_user_gids wCmp).1).1.db wCmp.analysis.id
      = rowsFor (compare_with_user_gids wCmp).1.db wCmp.analysis.id :=
  ⟨by decide, by decide,
   ((C2_replace_then_insert_idempotent wCmp (by decide) (by decide)).2.1).trans (by decide),
   (C2_replace_then_insert_idempotent wCmp (by decide) (by decide)).2.2.2.2.2⟩

/-- C3: the persisted missing set contains no element of the
system-of-record set (for all x in the system set, no discrepancy row of
the run carries x), and when the system set is empty the missing set equals
the set of distinct extracted identifiers (membership-equal to the
extracted records identifiers). -/
theorem C3_missing_disjoint_from_system (w : World)
    (hne : ¬ w.svc.gids_from_files = [])
    (hinv1 : ∀ x ∈ w.svc.gids_from_files, x ∈ w.svc.gid_records.map (fun r => r.gid))
    (hinv2 : ∀ x ∈ w.svc.gid_records.map (fun r => r.gid), x ∈ w.svc.gids_from_files) :
    (∀ x ∈ userGidSet w.db.users,
      ∀ r ∈ rowsFor (compare_with_user_gids w).1.db w.analysis.id, ¬ r.gid = x) ∧
    (userGidSet w.db.users = [] →
      ∀ x, x ∈ (rowsFor (compare_with_user_gids w).1.db w.analysis.id).map (fun r => r.gid)
        ↔ x ∈ w.svc.gid_records.map (fun r => r.gid)) := by
  have hg := compare_rows_gids w hne
  constructor
  · intro x hx r hr heq
    have hmem : r.gid ∈ (rowsFor (compare_with_user_gids w).1.db w.analysis.id).map
        (fun r => r.gid) := List.mem_map_of_mem _ hr
    rw [hg] at hmem
    have hnot := (List.mem_filter.mp hmem).2
    simp only [decide_eq_true_eq] at hnot
    exact hnot (heq ▸ hx)
  · intro hS x
    rw [hg, hS]
    constructor
    · intro hx
      exact hinv1 x (List.mem_filter.mp hx).1
    · intro hx
      refine List.mem_filter.mpr ⟨hinv2 x hx, ?_⟩
      simp

/-- C3 witness: on wCmp, the system identifiers G100 and G300 appear in no
persisted discrepancy row of the run. -/
theorem C3_witness :
    (¬ wCmp.svc.gids_from_files = []) ∧
    (∀ x ∈ userGidSet wCmp.db.users,
      ∀ r ∈ rowsFor (compare_with_user_gids wCmp).1.db wCmp.analysis.id, ¬ r.gid = x) :=
  ⟨by decide,
   (C3_missing_disjoint_from_system wCmp (by decide) (by decide) (by decide)).1⟩

/-- C6 counterexample: in the concrete state wEmpty, extraction left an
empty distinct-identifier set, yet the reconciliation step does NOT return
a successful result with zero discrepancies: the guard at the top of
compare_with_user_gids runs `return self.error("Önce Excel dosyalarını
işlemelisiniz.")`, whose missing helper raises AttributeError, and the
discrepancy table is left untouched. This refutes the claim as stated. -/
theorem C6_counterexample :
    wEmpty.svc.gids_from_files = [] ∧
    (compare_with_user_gids wEmpty).2 = Outcome.raised (PyExc.attributeError "error") ∧
    ¬ ((compare_with_user_gids wEmpty).2.isSuccess = true) ∧
    (compare_with_user_gids wEmpty).1.db = wEmpty.db := by
  refine ⟨by decide, by decide, by decide, by decide⟩

/-- C6 (amended): if the set of distinct extracted identifiers is empty,
the reconciliation step fails at its you-must-process-files-first guard —
it does not return a successful zero-discrepancy result — and it touches
neither the discrepancy rows nor anything else in the database; this
failure site is inside the comparing stage and thus distinct from the
earlier NoDataForPeriod failure of the matcher. -/
theorem C6_amended_empty_extraction_fails (w : World)
    (h : w.svc.gids_from_files = []) :
    (compare_with_user_gids w).2 = Outcome.raised (PyExc.attributeError "error") ∧
    ¬ ((compare_with_user_gids w).2.isSuccess = true) ∧
    (compare_with_user_gids w).1.db = w.db := by
  obtain ⟨e1, -, -, -, -, e6⟩ := compare_empty w h
  refine ⟨e6, ?_, e1⟩
  rw [e6]
  simp [Outcome.isSuccess]

/-- C6 witness: the amended claim at the concrete state wEmpty. -/
theorem C6_witness :
    wEmpty.svc.gids_from_files = [] ∧
    ¬ ((compare_with_user_gids wEmpty).2.isSuccess = true) ∧
    (compare_with_user_gids wEmpty).1.db = wEmpty.db :=
  ⟨by decide, (C6_amended_empty_extraction_fails wEmpty (by decide)).2.1,
   (C6_amended_empty_extraction_fails wEmpty (by decide)).2.2⟩

/-- C5 counterexample: in env5/w5 one staged file parses successfully and
yields one identifier, yet the ProcessedADFile table stays empty — the
pipeline never creates the one-row-per-parsed-file records the claim
describes (no code in the repository ever instantiates ProcessedADFile). -/
theorem C5_counterexample :
    (process_downloaded_files env5 w5).1.svc.processed_files
      = ["EventExport_2025-01-01.xlsx"] ∧
    (process_downloaded_files env5 w5).1.db.procRows = [] ∧
    ¬ ((process_downloaded_files env5 w5).1.db.procRows.length
        = (process_downloaded_files env5 w5).1.svc.processed_files.length) := by
  refine ⟨by decide, by decide, by decide⟩

/-- C5 (amended): no stage of the pipeline ever creates (or mutates) a
ProcessedFile row: processing, reconciliation, the orchestrator and the
trigger all leave the ProcessedADFile table exactly as it was; a
successfully parsed source file is recorded only in the service's
in-memory processed-files list (and, in the intended flow, the run's
processed_files_count counter). -/
theorem C5_amended_no_processed_file_rows (env : Env) (w : World) (sp : String)
    (y m : Nat) (op : Option String) :
    (process_downloaded_files env w).1.db.procRows = w.db.procRows ∧
    (compare_with_user_gids w).1.db.procRows = w.db.procRows ∧
    (run_full_analysis env w sp y m op).1.db.procRows = w.db.procRows ∧
    (ad_log_run_analysis env w).1.db.procRows = w.db.procRows := by
  refine ⟨?_, ?_, ?_, ?_⟩
  · exact congrArg DB.procRows (process_fields env w).2.1
  · by_cases h : w.svc.gids_from_files = []
    · exact congrArg DB.procRows (compare_empty w h).1
    · exact (compare_fields w h).2.2.1
  · exact congrArg DB.procRows (run_full_shape env w sp y m op).2.2.1
  · by_cases hg : (w.analysis.status = .completed ∨ w.analysis.status = .email_pending
        ∨ w.analysis.status = .email_sent)
    · rw [view_reject env w hg]
    · exact congrArg DB.procRows (view_nonguard env w hg).2.2

/-- C5 witness for the amended claim: on the concrete staged world w5 the
processing stage leaves the ProcessedADFile table unchanged. -/
theorem C5_witness :
    (process_downloaded_files env5 w5).1.db.procRows = w5.db.procRows ∧
    (ad_log_run_analysis env5 w5).1.db.procRows = w5.db.procRows :=
  ⟨(C5_amended_no_processed_file_rows env5 w5 "/fileserver/adlogs" 2025 1
      (some "/outputs/adlog")).1,
   (C5_amended_no_processed_file_rows env5 w5 "/fileserver/adlogs" 2025 1
      (some "/outputs/adlog")).2.2.2⟩

/-- C7: if the source directory does not exist, or no expected file of the
month is found under any accepted extension, the matcher stage fails (its
terminating self.error raises), and the orchestrator run ends with status
failed and a stored error message, publishes no extraction-stage progress,
leaves the service extraction state untouched and creates no ProcessedFile
or Discrepancy rows for the run. -/
theorem C7_matcher_failure_aborts_run (env : Env) (w : World) (sp : String)
    (y m : Nat) (op : Option String)
    (h : ¬ w.fs.sourceExists ∨
      ∀ b ∈ get_expected_filenames y m, probeDay w.fs.sourceListing b = none) :
    (download_files_to_temp w sp y m).2 = Outcome.raised (PyExc.attributeError "error") ∧
    (run_full_analysis env w sp y m op).1.analysis.status = Status.failed ∧
    (run_full_analysis env w sp y m op).1.analysis.error_message.isSome = true ∧
    (run_full_analysis env w sp y m op).1.db.discRows = w.db.discRows ∧
    (run_full_analysis env w sp y m op).1.db.procRows = w.db.procRows ∧
    (run_full_analysis env w sp y m op).1.svc = w.svc ∧
    (∀ p ∈ (run_full_analysis env w sp y m op).1.progressTrace,
      p ∈ w.progressTrace ∨ p.step = "initializing" ∨ p.step = "downloading") := by
  obtain ⟨r1, r2, r3, r4, r5, r6, r7⟩ := run_full_shape env w sp y m op
  refine ⟨?_, r1, ?_, congrArg DB.discRows r3, congrArg DB.procRows r3, r4, r6⟩
  · simp only [download_files_to_temp]
    by_cases hs : w.fs.sourceExists
    · rw [if_neg (by simp [pub, hs])]
      rcases hr : downloadRun
          (pub w "downloading" 0 "Dosyalar fileserverdan indiriliyor...")
          (get_expected_filenames y m) with ⟨w1, dl, nf, i⟩
      have h7 := (downloadRun_inv
        (pub w "downloading" 0 "Dosyalar fileserverdan indiriliyor...")
        (get_expected_filenames y m)).2.2.2.2.2.2.1
      rw [hr] at h7
      dsimp only at h7
      rcases h with h | h
      · exact absurd hs h
      · have hdl : dl = [] := by
          rw [h7, List.filterMap_eq_nil_iff]
          intro b hb
          simpa [pub] using h b hb
        rw [if_pos hdl]
        rfl
    · rw [if_pos (by simp [pub, hs])]
      rfl
  · rcases r2 with ⟨a, ha⟩
    rw [ha]
    rfl

/-- C7 witness: the concrete pending run w0, whose source directory does
not exist; the pipeline ends failed with a stored message and no
discrepancy rows. -/
theorem C7_witness :
    (¬ w0.fs.sourceExists ∨
      ∀ b ∈ get_expected_filenames 2025 1, probeDay w0.fs.sourceListing b = none) ∧
    (run_full_analysis env0 w0 "/fileserver/adlogs" 2025 1
        (some "/outputs/adlog")).1.analysis.status = Status.failed ∧
    (run_full_analysis env0 w0 "/fileserver/adlogs" 2025 1
        (some "/outputs/adlog")).1.db.discRows = w0.db.discRows :=
  ⟨Or.inl (by decide),
   (C7_matcher_failure_aborts_run env0 w0 "/fileserver/adlogs" 2025 1
     (some "/outputs/adlog") (Or.inl (by decide))).2.1,
   (C7_matcher_failure_aborts_run env0 w0 "/fileserver/adlogs" 2025 1
     (some "/outputs/adlog") (Or.inl (by decide))).2.2.2.1⟩

/-- C9: when the notification send raises a transport error on a run that
reached completed (or email_pending), the service leaves the analysis row
completely unchanged — status stays, the persisted error field stays, the
status never becomes email_sent — and the call yields no success to its
caller; the email fields, the email_sent_at timestamp and status
email_sent are stamped exactly when the send succeeds. -/
theorem C9_notification_failure_leaves_run (a : Analysis)
    (to_list cc_list : List String) (subject body : String)
    (att : List Attachment) (err : String) (now : Nat)
    (h : a.status = Status.completed ∨ a.status = Status.email_pending) :
    (send_email a to_list cc_list subject body att (some err) now).1 = a ∧
    ¬ ((send_email a to_list cc_list subject body att (some err) now).1.status
        = Status.email_sent) ∧
    ¬ ((send_email a to_list cc_list subject body att (some err) now).2.2.isSuccess
        = true) ∧
    (send_email a to_list cc_list subject body att none now).1.status
      = Status.email_sent ∧
    (send_email a to_list cc_list subject body att none now).1.email_sent_at
      = some now ∧
    (send_email a to_list cc_list subject body att none now).1.email_to
      = some (joinComma to_list) ∧
    (send_email a to_list cc_list subject body att none now).1.email_subject
      = some subject ∧
    (send_email a to_list cc_list subject body att none now).1.email_body
      = some body := by
  refine ⟨rfl, ?_, ?_, rfl, rfl, rfl, rfl, rfl⟩
  · show ¬ (a.status = Status.email_sent)
    rcases h with h | h <;> rw [h] <;> intro hc <;> cases hc
  · show ¬ ((svcError SendData ("Email gönderilirken hata: " ++ err)).isSuccess = true)
    simp [svcError, Outcome.isSuccess]

/-- C9 witness: a completed run; the failing transport leaves it
untouched, the successful one stamps email_sent. -/
theorem C9_witness :
    (analysisDone.status = Status.completed ∨
      analysisDone.status = Status.email_pending) ∧
    (send_email analysisDone ["it@example.com"] [] "AD Log Raporu" "Rapor ektedir."
        [] (some "SMTP baglanti hatasi") 99).1 = analysisDone ∧
    (send_email analysisDone ["it@example.com"] [] "AD Log Raporu" "Rapor ektedir."
        [] none 99).1.status = Status.email_sent :=
  ⟨Or.inl rfl,
   (C9_notification_failure_leaves_run analysisDone ["it@example.com"] []
     "AD Log Raporu" "Rapor ektedir." [] "SMTP baglanti hatasi" 99 (Or.inl rfl)).1,
   (C9_notification_failure_leaves_run analysisDone ["it@example.com"] []
     "AD Log Raporu" "Rapor ektedir." [] "SMTP baglanti hatasi" 99
     (Or.inl rfl)).2.2.2.1⟩

/-- C10: every sendEmail request that passes validation (a nonempty
recipient list and a nonempty subject) hits the NameError on the
unimported global EmailMessage — neither EmailMessage nor settings is
among the module-level names of it_tools/views.py — which the handler
catches, returning a failure JSON; the analysis row is untouched, no email
is sent, and the status never advances to email_sent. -/
theorem C10_send_view_always_name_errors (a : Analysis) (req : SendReq)
    (h1 : ¬ splitRecipients req.toAddr = [])
    (h2 : ¬ req.subject = "") :
    (ad_log_send_email a (some req)).1 = a ∧
    (ad_log_send_email a (some req)).2.1.success = false ∧
    (ad_log_send_email a (some req)).2.2 = false ∧
    (ad_log_send_email a (some req)).2.1.error
      = some ("Email gönderilirken hata: "
          ++ (PyExc.nameError "EmailMessage").toMessage) ∧
    ¬ "EmailMessage" ∈ adLogViewsGlobals ∧
    ¬ "settings" ∈ adLogViewsGlobals := by
  simp only [ad_log_send_email]
  rw [if_neg h1, if_neg h2, if_neg (by decide)]
  exact ⟨rfl, rfl, rfl, rfl, by decide, by decide⟩

/-- C10 witness: a concrete valid request against a completed run; the
endpoint answers failure and the run is unchanged. -/
theorem C10_witness :
    (¬ splitRecipients req0.toAddr = []) ∧ (¬ req0.subject = "") ∧
    (ad_log_send_email analysisDone (some req0)).1 = analysisDone ∧
    (ad_log_send_email analysisDone (some req0)).2.1.success = false ∧
    (ad_log_send_email analysisDone (some req0)).2.2 = false :=
  ⟨by decide, by decide,
   (C10_send_view_always_name_errors analysisDone req0 (by decide) (by decide)).1,
   (C10_send_view_always_name_errors analysisDone req0 (by decide) (by decide)).2.1,
   (C10_send_view_always_name_errors analysisDone req0 (by decide) (by decide)).2.2.1⟩

/-- C1 counterexample: driving the pending run w0 through the trigger
persists the status sequence processing, downloading, failed, failed: the
trigger saves processing before the orchestrator saves downloading, so the
second save stores a status strictly earlier in the forward order than the
previously stored one — the claimed invariant fails. -/
theorem C1_counterexample :
    (ad_log_run_analysis env0 w0).1.statusTrace
      = [Status.processing, Status.downloading, Status.failed, Status.failed] ∧
    ¬ List.Chain' stepOk (ad_log_run_analysis env0 w0).1.statusTrace := by
  have htr : (ad_log_run_analysis env0 w0).1.statusTrace
      = [Status.processing, Status.downloading, Status.failed, Status.failed] := by decide
  refine ⟨htr, ?_⟩
  rw [htr]
  intro hch
  rcases (List.chain'_cons.mp hch).1 with h | h
  · cases h
  · simp [Status.idx] at h

/-- C1 (amended): every consecutive pair of persisted statuses advances
forward or jumps to failed, EXCEPT the one regression the trigger causes:
its initial save of processing immediately followed by the orchestrator's
save of downloading. -/
theorem C1_amended_forward_except_trigger_reset (env : Env) (w : World)
    (h : w.statusTrace = []) :
    List.Chain'
      (fun s1 s2 => stepOk s1 s2 ∨ (s1 = Status.processing ∧ s2 = Status.downloading))
      (ad_log_run_analysis env w).1.statusTrace := by
  rcases view_cases env w with hc | hc | hc <;> rw [hc, h] <;>
    simp [List.chain'_cons, stepOk, Status.idx]

/-- C1 witness: the amended forward rule on the concrete run w0. -/
theorem C1_witness :
    w0.statusTrace = [] ∧
    List.Chain'
      (fun s1 s2 => stepOk s1 s2 ∨ (s1 = Status.processing ∧ s2 = Status.downloading))
      (ad_log_run_analysis env0 w0).1.statusTrace :=
  ⟨rfl, C1_amended_forward_except_trigger_reset env0 w0 rfl⟩

/-- C4 counterexample: the trigger invoked on a run already in status
processing (past downloading) is NOT rejected with the already-processed
signal, and the pipeline is re-run (the persisted status trace grows) —
refuting the claim for the statuses processing and comparing. -/
theorem C4_counterexample :
    wProc.analysis.status = Status.processing ∧
    ¬ ((ad_log_run_analysis env0 wProc).2 = alreadyProcessedResp) ∧
    ¬ ((ad_log_run_analysis env0 wProc).1.statusTrace = wProc.statusTrace) := by
  refine ⟨by decide, by decide, by decide⟩

/-- C4 (amended): the trigger rejects exactly the runs whose status is
completed, email_pending or email_sent, returning the already-processed
signal and leaving the world untouched; for every other status — including
processing and comparing — it is not rejected and the pipeline is re-run
(at least one further status save is persisted). -/
theorem C4_amended_guard_is_completed_only (env : Env) (w : World) :
    ((w.analysis.status = Status.completed ∨ w.analysis.status = Status.email_pending
        ∨ w.analysis.status = Status.email_sent) →
      ad_log_run_analysis env w = (w, alreadyProcessedResp)) ∧
    (¬ (w.analysis.status = Status.completed ∨ w.analysis.status = Status.email_pending
        ∨ w.analysis.status = Status.email_sent) →
      ¬ ((ad_log_run_analysis env w).2 = alreadyProcessedResp) ∧
      ¬ ((ad_log_run_analysis env w).1.statusTrace = w.statusTrace)) := by
  constructor
  · exact view_reject env w
  · intro hg
    obtain ⟨htr, hresp, -⟩ := view_nonguard env w hg
    constructor
    · rcases hresp with hx | hx <;> rw [hx] <;> decide
    · rcases htr with hx | hx <;> rw [hx] <;> intro hc <;>
        exact absurd (congrArg List.length hc) (by simp)

/-- C4 witness: a completed run is rejected with the already-processed
signal and nothing is saved; the processing run wProc is not rejected. -/
theorem C4_witness :
    ({ w0 with analysis := analysisDone }.analysis.status = Status.completed ∨
      { w0 with analysis := analysisDone }.analysis.status = Status.email_pending ∨
      { w0 with analysis := analysisDone }.analysis.status = Status.email_sent) ∧
    ad_log_run_analysis env0 { w0 with analysis := analysisDone }
      = ({ w0 with analysis := analysisDone }, alreadyProcessedResp) ∧
    ¬ ((ad_log_run_analysis env0 wProc).2 = alreadyProcessedResp) :=
  ⟨Or.inl rfl,
   (C4_amended_guard_is_completed_only env0 { w0 with analysis := analysisDone }).1
     (Or.inl rfl),
   ((C4_amended_guard_is_completed_only env0 wProc).2 (by decide)).1⟩

end ADLog